import Mathlib

/-!
Shallow embedding of the We-Are demo back end (Express endpoints):
`src/endpoint/authentication-endpoint.ts` (`/login`, `/logout`,
`/oidc-redirect`), `src/endpoint/session-endpoint.ts`
(`/session-information`) and the VC endpoint (`/access-grant`).
External capabilities (`oidcService`, `athumiService`, `vcService`,
`solidStorage`) are modelled as environment records holding the outcome
of each call made by a handler; cookie-session state (`req.session`),
the shared global `frontendUrl` object, the emitted redirect and the
`next(error)` channel are threaded explicitly.
-/

/-- Model of the platform `URL` object, reduced to the parts the
endpoints use: the portion before the query string, and the ordered
query parameters (`searchParams`). -/
structure Url where
  base : String
  params : List (String × String)
deriving Repr, DecidableEq

/-- Model of `URLSearchParams.set` on the parameter list: replaces the
first pair with the given key (removing any further pairs with that
key), or appends the pair at the end when the key is absent. -/
def setParamList : List (String × String) → String → String → List (String × String)
  | [], k, v => [(k, v)]
  | (k', v') :: rest, k, v =>
    if k' == k then (k, v) :: rest.filter (fun p => p.1 != k)
    else (k', v') :: setParamList rest k v

/-- `url.searchParams.set(k, v)`. -/
def Url.setParam (u : Url) (k v : String) : Url :=
  { u with params := setParamList u.params k v }

/-- `url.searchParams.get(k)`: value of the first pair with the key,
`null` (here `none`) when absent. -/
def Url.getParam (u : Url) (k : String) : Option String :=
  (u.params.find? (fun p => p.1 == k)).map (fun p => p.2)

/-- Split a character list on a separator character (the separator is
dropped; an empty input yields one empty segment, as string splitting
does). -/
def splitOnChar (c : Char) : List Char → List (List Char)
  | [] => [[]]
  | x :: xs =>
    match splitOnChar c xs with
    | [] => [[]]
    | y :: ys => if x = c then [] :: y :: ys else (x :: y) :: ys

/-- Whether a character list contains the `://` scheme separator. -/
def hasSchemeSep : List Char → Bool
  | ':' :: '/' :: '/' :: _ => true
  | _ :: rest => hasSchemeSep rest
  | [] => false

/-- Whether the first character list is a leading segment of the
second. -/
def listPrefixOf : List Char → List Char → Bool
  | [], _ => true
  | _ :: _, [] => false
  | x :: xs, y :: ys => x == y && listPrefixOf xs ys

/-- Model of `String.prototype.startsWith` as the source uses it on
error messages. -/
def jsStartsWith (s pre : String) : Bool := listPrefixOf pre.data s.data

/-- One `k=v` query fragment as a parameter pair; a fragment without a
key is dropped. -/
def splitKV (kv : List Char) : Option (String × String) :=
  match splitOnChar '=' kv with
  | [k] => if k = [] then none else some (String.mk k, "")
  | [k, v] => if k = [] then none else some (String.mk k, String.mk v)
  | _ => none

/-- Model of the `new URL(string)` constructor on absolute URL strings:
splits off the query string and its `k=v` pairs; a string without a
scheme separator is rejected (the constructor throws `TypeError`). -/
def Url.parse (s : String) : Option Url :=
  match splitOnChar '?' s.data with
  | [] => none
  | base :: queryParts =>
    if hasSchemeSep base then
      some { base := String.mk base,
             params := queryParts.foldl (fun acc q =>
               acc ++ (splitOnChar '&' q).filterMap splitKV) [] }
    else none

/-- `new URL(urlObject)` builds a fresh object with the same components;
in this functional model the copy is the value itself, and aliasing is
captured by which branch writes the shared global back to the world. -/
def Url.copy (u : Url) : Url := u

/-- JavaScript truthiness of an optional string value (`undefined` and
the empty string are falsy). -/
def truthyStr : Option String → Bool
  | none => false
  | some s => !s.isEmpty

/-- The model of an `AccessGrant` as the endpoints use it: its `id`
field and its expiration instant (the source carries the expiration as
a date string; the model carries the instant it denotes, in epoch
milliseconds). Both are optional in the SDK type. -/
structure AccessGrant where
  id : Option String
  expirationDate : Option Int
deriving Repr, DecidableEq

/-- Cookie-bound request session state (`req.session`). The source
stores `redirectUrl` as the `href` of the parsed URL and re-parses it at
use; the model stores the URL value itself, relying on the href
round-trip of the platform URL class. `accessGrant` is stored via
`JSON.stringify`/`JSON.parse`; the model stores the grant value. -/
structure ReqSession where
  solidSid : String
  redirectUrl : Option Url
  workaroundActive : Option String
  accessGrant : Option AccessGrant
  accessGrantExpirationDate : Option String
  pods : Option (List String)
  locale : Option String
deriving Repr, DecidableEq

/-- Mutable process-wide state: the shared `globalThis.frontendUrl`
URL object. -/
structure World where
  frontendUrl : Url
deriving Repr, DecidableEq

/-- The JSON record kept by the Solid auth SDK in `solidStorage` under
`solidClientAuthenticationUser:<sid>`; the workaround reads only its
`codeVerifier` field. -/
structure SolidClientRecord where
  codeVerifier : String
deriving Repr, DecidableEq

/-- Token-endpoint response as used by the workaround (`data.id_token`). -/
structure TokenResponse where
  id_token : String
deriving Repr, DecidableEq

/-- Observable calls a handler makes to the external capabilities, in
program order. -/
inductive CapCall where
  | handleIncomingRedirect (fullUrl : String)
  | storageGet (key : String)
  | getToken (code : String) (verifier : String) (st : String)
  | provisionWebId (idToken : String)
  | login (switchIdentity : Bool)
deriving Repr, DecidableEq

/-- Result of one authentication-endpoint handler run: the redirect it
emitted (if any), the updated cookie session, the updated world, the
capability calls made, and the error passed to `next` (if any). -/
structure AuthResult where
  redirectTo : Option Url
  session : ReqSession
  world : World
  actions : List CapCall
  errorToNext : Option String
deriving Repr, DecidableEq

/-- Fixed `login_hint` value instructing the provider to switch
identity (static string in the source). -/
def switchIdHint : String := "eyJzd2l0Y2hfaWQiOiB0cnVlfQ=="

/-- The scope-patching block repeated at each login callback: read the
`scope` parameter, append `rrn` when a non-empty scope list is present
(the empty string is falsy in the source test), else set it to `rrn`. -/
def addScope (u : Url) : Url :=
  match u.getParam "scope" with
  | some sc => if sc.isEmpty then u.setParam "scope" "rrn"
               else u.setParam "scope" (sc ++ " rrn")
  | none => u.setParam "scope" "rrn"

/-- Message prefix the `/oidc-redirect` handler matches with
`error.message.startsWith` to recognise the missing-WebID case. -/
def noWebIdClaimMsg : String := "The token has no \x27webid\x27 claim"

/-- Environment of one `/login` handler run: the fresh Solid session id
and the outcome of `oidcService.login` (an error, or the provider URL
handed to the redirect callback). -/
structure OidcLoginEnv where
  newSessionId : String
  login : Except String String

/-- The per-callback URL surgery shared by the three login call sites:
patch the scope, and set the fixed identity-switch `login_hint` when the
site requests it. -/
def loginCallbackUrl (switchIdentity : Bool) (u : Url) : Url :=
  let lu := addScope u
  if switchIdentity then lu.setParam "login_hint" switchIdHint else lu

/-- Tail of the `/login` handler after the `redirectUrl` query has been
processed: run `oidcService.login`; its callback parses the provider
URL, patches the scope, conditionally sets the switch-identity hint and
emits the redirect. A rejected login or an unparseable URL reaches the
catch block and is passed to `next`. -/
def loginProceed (env : OidcLoginEnv) (w : World) (s : ReqSession)
    (switchIdentityQ : Option String) : AuthResult :=
  match env.login with
  | .error e =>
    { redirectTo := none, session := s, world := w,
      actions := [.login (truthyStr switchIdentityQ)], errorToNext := some e }
  | .ok urlStr =>
    match Url.parse urlStr with
    | none =>
      { redirectTo := none, session := s, world := w,
        actions := [.login (truthyStr switchIdentityQ)],
        errorToNext := some "Invalid URL" }
    | some u =>
      { redirectTo := some (loginCallbackUrl (truthyStr switchIdentityQ) u),
        session := s, world := w,
        actions := [.login (truthyStr switchIdentityQ)], errorToNext := none }

/-- `GET /login` (authentication-endpoint lines 32-63): create a fresh
Solid session and record its id; when a truthy `redirectUrl` query is
present, parse it and store its href on the cookie session (a malformed
value throws and reaches `next`); then start the OIDC login. -/
def loginHandler (env : OidcLoginEnv) (w : World) (s : ReqSession)
    (redirectUrlQ switchIdentityQ : Option String) : AuthResult :=
  let s1 := { s with solidSid := env.newSessionId }
  if truthyStr redirectUrlQ then
    match Url.parse (redirectUrlQ.getD "") with
    | none =>
      { redirectTo := none, session := s1, world := w, actions := [],
        errorToNext := some "Invalid URL" }
    | some u => loginProceed env w { s1 with redirectUrl := some u } switchIdentityQ
  else loginProceed env w s1 switchIdentityQ

/-- `GET /logout` (authentication-endpoint lines 76-99), reached with a
resolved session: call `session.logout()`; on success clear the grant,
grant expiration, pods, locale and workaround fields and redirect to a
fresh copy of the front-end URL with `logout=success`; on any failure
redirect with `logout=error`. Neither branch passes an error to `next`. -/
def logoutHandler (logoutResult : Except String Unit) (w : World)
    (s : ReqSession) : AuthResult :=
  match logoutResult with
  | .ok _ =>
    { redirectTo := some ((Url.copy w.frontendUrl).setParam "logout" "success"),
      session := { s with accessGrant := none, accessGrantExpirationDate := none,
                          pods := none, locale := none, workaroundActive := none },
      world := w, actions := [], errorToNext := none }
  | .error _ =>
    { redirectTo := some ((Url.copy w.frontendUrl).setParam "logout" "error"),
      session := s, world := w, actions := [], errorToNext := none }

/-- Environment of one `/oidc-redirect` handler run: outcome of
`session.handleIncomingRedirect` (error message, or the value of
`session.info.isLoggedIn` afterwards), the `solidStorage` contents, and
the outcomes of `oidcService.getToken`, `athumiService.provisionWebId`
and `oidcService.login`. -/
structure RedirectEnv where
  handleIncomingRedirect : Except String Bool
  storage : String → Option SolidClientRecord
  getToken : Except String TokenResponse
  provision : Except String Unit
  login : Except String String

/-- `GET /oidc-redirect` (authentication-endpoint lines 116-199).
Dispatch on `req.session.workaroundActive` (JS truthiness):
absent/falsy is the normal completion path, whose catch block enters the
`create_web_id` workaround on the missing-WebID error message and
rethrows anything else; `create_web_id` runs the provisioning leg
(storage read, direct token exchange, WebID provisioning, clear the
flag, second login with the switch-identity hint); `delete_pod` and any
other value have no branch body, so no response and no error. The
failed-login branch aliases the shared global `frontendUrl` object and
mutates it in place; every other branch copies it. -/
def oidcRedirectHandler (env : RedirectEnv) (w : World) (s : ReqSession)
    (fullUrl code st : String) : AuthResult :=
  if truthyStr s.workaroundActive = false then
    match env.handleIncomingRedirect with
    | .ok loggedIn =>
      if !loggedIn then
        let mutated := w.frontendUrl.setParam "login" "failed"
        { redirectTo := some mutated, session := s,
          world := { frontendUrl := mutated },
          actions := [.handleIncomingRedirect fullUrl], errorToNext := none }
      else
        match s.redirectUrl with
        | some ru =>
          { redirectTo := some (ru.setParam "login" "success"),
            session := { s with redirectUrl := none }, world := w,
            actions := [.handleIncomingRedirect fullUrl], errorToNext := none }
        | none =>
          { redirectTo := some ((Url.copy w.frontendUrl).setParam "login" "success"),
            session := s, world := w,
            actions := [.handleIncomingRedirect fullUrl], errorToNext := none }
    | .error msg =>
      if jsStartsWith msg noWebIdClaimMsg then
        let s1 := { s with workaroundActive := some "create_web_id" }
        match env.login with
        | .error e =>
          { redirectTo := none, session := s1, world := w,
            actions := [.handleIncomingRedirect fullUrl, .login false],
            errorToNext := some e }
        | .ok urlStr =>
          match Url.parse urlStr with
          | none =>
            { redirectTo := none, session := s1, world := w,
              actions := [.handleIncomingRedirect fullUrl, .login false],
              errorToNext := some "Invalid URL" }
          | some u =>
            { redirectTo := some (loginCallbackUrl false u), session := s1,
              world := w,
              actions := [.handleIncomingRedirect fullUrl, .login false],
              errorToNext := none }
      else
        { redirectTo := none, session := s, world := w,
          actions := [.handleIncomingRedirect fullUrl], errorToNext := some msg }
  else if s.workaroundActive == some "create_web_id" then
    let key := "solidClientAuthenticationUser:" ++ s.solidSid
    match env.storage key with
    | none =>
      { redirectTo := none, session := s, world := w,
        actions := [.storageGet key],
        errorToNext := some "Unexpected token u in JSON at position 0" }
    | some sr =>
      match env.getToken with
      | .error e =>
        { redirectTo := none, session := s, world := w,
          actions := [.storageGet key, .getToken code sr.codeVerifier st],
          errorToNext := some e }
      | .ok tok =>
        match env.provision with
        | .error e =>
          { redirectTo := none, session := s, world := w,
            actions := [.storageGet key, .getToken code sr.codeVerifier st,
                        .provisionWebId tok.id_token],
            errorToNext := some e }
        | .ok _ =>
          let s1 := { s with workaroundActive := none }
          match env.login with
          | .error e =>
            { redirectTo := none, session := s1, world := w,
              actions := [.storageGet key, .getToken code sr.codeVerifier st,
                          .provisionWebId tok.id_token, .login true],
              errorToNext := some e }
          | .ok urlStr =>
            match Url.parse urlStr with
            | none =>
              { redirectTo := none, session := s1, world := w,
                actions := [.storageGet key, .getToken code sr.codeVerifier st,
                            .provisionWebId tok.id_token, .login true],
                errorToNext := some "Invalid URL" }
            | some u =>
              { redirectTo := some (loginCallbackUrl true u), session := s1,
                world := w,
                actions := [.storageGet key, .getToken code sr.codeVerifier st,
                            .provisionWebId tok.id_token, .login true],
                errorToNext := none }
  else
    { redirectTo := none, session := s, world := w, actions := [],
      errorToNext := none }

/-- Models ECMAScript `Date.prototype.toISOString` on a valid date: the
unique UTC (timezone-normalized) ISO-8601 rendering of a millisecond
epoch timestamp, modelled as an injective rendering of the timestamp
(the exact digit grouping of the real format is irrelevant to the
properties proved). -/
def toISOStringModel (ms : Int) : String := "ISO:" ++ toString ms ++ "Z"

/-- `new Date(x).toISOString()` where `x` may be `undefined`:
`undefined * 1000` is `NaN`, the date is invalid, and `toISOString`
throws `RangeError: Invalid time value`. -/
def dateToISOString : Option Int → Except String String
  | none => Except.error "Invalid time value"
  | some ms => Except.ok (toISOStringModel ms)

/-- The fields of `res.locals.session.info` read by the session
endpoint; `expirationDate` is optional in the SDK session-info type and
carried here as the numeric value the source multiplies by 1000. -/
structure SolidSessionInfo where
  isLoggedIn : Bool
  webId : Option String
  expirationDate : Option Int
deriving Repr, DecidableEq

/-- The JSON view assembled by `GET /session-information`
(session-endpoint lines 48-55); an `Option` field set to `none` models
the key being absent from the object. -/
structure SessionInformation where
  isLoggedIn : Bool
  expirationDate : Option String
  accessGrantId : Option String
  accessGrantExpirationDate : Option String
  webId : Option String
  pods : Option (List String)
deriving Repr, DecidableEq

/-- Access-grant part of the session view (session-endpoint lines
70-79): parse the stored grant and copy a truthy `id`; copy a truthy
stored grant-expiration string. -/
def applyGrantFields (rs : ReqSession) (si : SessionInformation) :
    SessionInformation :=
  let si1 := match rs.accessGrant with
    | some g =>
      match g.id with
      | some i => if i.isEmpty then si else { si with accessGrantId := some i }
      | none => si
    | none => si
  match rs.accessGrantExpirationDate with
  | some d => if d.isEmpty then si1
              else { si1 with accessGrantExpirationDate := some d }
  | none => si1

/-- `GET /session-information` (session-endpoint lines 43-87): start
from `\x7b isLoggedIn: false \x7d`; when a session record resolves, copy
`isLoggedIn`, unconditionally render `info.expirationDate * 1000` as an
ISO string (this throws when the field is absent, and the error is
passed to `next`), then copy a truthy `webId` and a present pod list;
finally apply the grant fields from the cookie session. -/
def sessionInformationHandler (sessOpt : Option SolidSessionInfo)
    (podsLoc : Option (List String)) (rs : ReqSession) :
    Except String SessionInformation :=
  let base : SessionInformation :=
    { isLoggedIn := false, expirationDate := none, accessGrantId := none,
      accessGrantExpirationDate := none, webId := none, pods := none }
  match sessOpt with
  | none => Except.ok (applyGrantFields rs base)
  | some info =>
    match dateToISOString (info.expirationDate.map (fun e => e * 1000)) with
    | Except.error e => Except.error e
    | Except.ok expStr =>
      let si := { base with isLoggedIn := info.isLoggedIn,
                            expirationDate := some expStr }
      let si := match info.webId with
        | some wid => if wid.isEmpty then si else { si with webId := some wid }
        | none => si
      let si := match podsLoc with
        | some p => { si with pods := some p }
        | none => si
      Except.ok (applyGrantFields rs si)

/-- `POST /access-grant` (vc endpoint lines 34-49): fetch the grant by
id; store its serialized copy on the cookie session; then normalize its
expiration (`new Date(g.expirationDate!).toISOString()`, which throws
when the field is absent — note the grant itself is already stored at
that point) and store the resulting string. Returns the response text or
the error passed to `next`, plus the updated cookie session. -/
def postAccessGrantHandler (fetchResult : Except String AccessGrant)
    (rs : ReqSession) : Except String String × ReqSession :=
  match fetchResult with
  | Except.error e => (Except.error e, rs)
  | Except.ok g =>
    let rs1 := { rs with accessGrant := some g }
    match g.expirationDate with
    | none => (Except.error "Invalid time value", rs1)
    | some t =>
      (Except.ok "Access grant set on session",
       { rs1 with accessGrantExpirationDate := some (toISOStringModel t) })

/-- Run a sequence of `/oidc-redirect` completions for the same browser
session, threading the world and the cookie session from one completion
to the next. -/
def runCompletions (w : World) (s : ReqSession) (fullUrl code st : String) :
    List RedirectEnv → List AuthResult
  | [] => []
  | e :: es =>
    let r := oidcRedirectHandler e w s fullUrl code st
    r :: runCompletions r.world r.session fullUrl code st es

/-- Recognisers for the capability calls counted by the
provisioning-round-trip property. -/
def isProvisionCall : CapCall → Bool
  | CapCall.provisionWebId _ => true
  | _ => false

def isTokenCall : CapCall → Bool
  | CapCall.getToken _ _ _ => true
  | _ => false

def isSwitchLoginCall : CapCall → Bool
  | CapCall.login b => b
  | _ => false

/-- Number of capability calls matching `p` across a list of handler
results. -/
def countCalls (p : CapCall → Bool) (results : List AuthResult) : Nat :=
  (results.map (fun r => (r.actions.filter p).length)).sum

/-- JS truthiness filter applied by the session endpoint when copying an
optional string field into the view: a missing or empty value is
omitted. -/
def truthyOptStr : Option String → Option String
  | some s => if s.isEmpty then none else some s
  | none => none

/-- The grant id the view carries for a given cookie session
(session-endpoint lines 70-75): the truthy `id` of the stored grant. -/
def storedGrantId (rs : ReqSession) : Option String :=
  match rs.accessGrant with
  | some g => truthyOptStr g.id
  | none => none

/-- The grant expiration the view carries for a given cookie session
(session-endpoint lines 77-79): the truthy stored expiration string. -/
def storedGrantExpiration (rs : ReqSession) : Option String :=
  truthyOptStr rs.accessGrantExpirationDate

/-- A fresh cookie session with no stored fields. -/
def rsEmpty : ReqSession :=
  { solidSid := "sid-0", redirectUrl := none, workaroundActive := none,
    accessGrant := none, accessGrantExpirationDate := none, pods := none,
    locale := none }

/-- The view with every optional key absent. -/
def emptySessionView : SessionInformation :=
  { isLoggedIn := false, expirationDate := none, accessGrantId := none,
    accessGrantExpirationDate := none, webId := none, pods := none }

/-- A sample front-end URL object for concrete instances. -/
def frontSample : Url := { base := "https://front.example/app", params := [] }

theorem toISOStringModel_isEmpty (t : Int) : (toISOStringModel t).isEmpty = false := by
  have h : toISOStringModel t ≠ "" := by
    simp [toISOStringModel, String.ext_iff, String.data_append]
  exact Bool.eq_false_iff.mpr (fun hb => h ((String.isEmpty_iff _).mp hb))

theorem applyGrantFields_accessGrantId (rs : ReqSession) (si : SessionInformation)
    (h : si.accessGrantId = none) :
    (applyGrantFields rs si).accessGrantId = storedGrantId rs := by
  unfold applyGrantFields storedGrantId truthyOptStr
  repeat' split
  all_goals simp_all

theorem applyGrantFields_accessGrantExpirationDate (rs : ReqSession)
    (si : SessionInformation) (h : si.accessGrantExpirationDate = none) :
    (applyGrantFields rs si).accessGrantExpirationDate = storedGrantExpiration rs := by
  unfold applyGrantFields storedGrantExpiration truthyOptStr
  repeat' split
  all_goals simp_all

theorem applyGrantFields_isLoggedIn (rs : ReqSession) (si : SessionInformation) :
    (applyGrantFields rs si).isLoggedIn = si.isLoggedIn := by
  unfold applyGrantFields
  repeat' split
  all_goals simp_all

theorem applyGrantFields_webId (rs : ReqSession) (si : SessionInformation) :
    (applyGrantFields rs si).webId = si.webId := by
  unfold applyGrantFields
  repeat' split
  all_goals simp_all

theorem applyGrantFields_pods (rs : ReqSession) (si : SessionInformation) :
    (applyGrantFields rs si).pods = si.pods := by
  unfold applyGrantFields
  repeat' split
  all_goals simp_all

theorem applyGrantFields_expirationDate (rs : ReqSession) (si : SessionInformation) :
    (applyGrantFields rs si).expirationDate = si.expirationDate := by
  unfold applyGrantFields
  repeat' split
  all_goals simp_all

theorem sessionInformationHandler_ok_grant_fields (sessOpt : Option SolidSessionInfo)
    (podsLoc : Option (List String)) (rs : ReqSession) (si : SessionInformation)
    (h : sessionInformationHandler sessOpt podsLoc rs = Except.ok si) :
    si.accessGrantId = storedGrantId rs ∧
    si.accessGrantExpirationDate = storedGrantExpiration rs := by
  unfold sessionInformationHandler at h
  repeat' split at h
  all_goals first
    | exact (Except.noConfusion h)
    | (injection h with h; subst h;
       exact ⟨applyGrantFields_accessGrantId _ _ rfl,
              applyGrantFields_accessGrantExpirationDate _ _ rfl⟩)

theorem sessionInformationHandler_some_fields (info : SolidSessionInfo)
    (podsLoc : Option (List String)) (rs : ReqSession) (si : SessionInformation)
    (h : sessionInformationHandler (some info) podsLoc rs = Except.ok si) :
    si.isLoggedIn = info.isLoggedIn ∧ si.webId = truthyOptStr info.webId ∧
    si.pods = podsLoc := by
  unfold sessionInformationHandler at h
  repeat' split at h
  all_goals first
    | exact (Except.noConfusion h)
    | (injection h with h; subst h;
       refine ⟨?_, ?_, ?_⟩ <;>
         simp_all [applyGrantFields_isLoggedIn, applyGrantFields_webId,
                   applyGrantFields_pods, truthyOptStr])

/-- C4 (counterexample): a resolvable session record with
`isLoggedIn = false` but a webId, a pod list and stored grant data
yields a projected view with `isLoggedIn = false` in which `webId`,
`pods`, `accessGrantId` and `accessGrantExpirationDate` are all present,
contradicting the claim that they are absent whenever `isLoggedIn` is
false. -/
theorem c4_counterexample :
    sessionInformationHandler
      (some { isLoggedIn := false, webId := some "https://id.example/profile#me",
              expirationDate := some 0 })
      (some ["https://pod.example/data/"])
      { rsEmpty with
        accessGrant := some { id := some "grant-1", expirationDate := some 9 },
        accessGrantExpirationDate := some "ISO:9Z" } =
    Except.ok
      { isLoggedIn := false, expirationDate := some "ISO:0Z",
        accessGrantId := some "grant-1", accessGrantExpirationDate := some "ISO:9Z",
        webId := some "https://id.example/profile#me",
        pods := some ["https://pod.example/data/"] } := by rfl

/-- C4 (amended): the projection does not filter on `isLoggedIn`; for an
existing session record whose view is not logged in, the optional fields
still track only the presence (and truthiness) of the underlying
values: `webId` is the record's truthy webId, `pods` is the resolved pod
list, and the access-grant fields mirror the cookie-session grant data. -/
theorem c4_fields_track_presence (info : SolidSessionInfo)
    (podsLoc : Option (List String)) (rs : ReqSession) (si : SessionInformation)
    (h : sessionInformationHandler (some info) podsLoc rs = Except.ok si)
    (_hlog : si.isLoggedIn = false) :
    si.webId = truthyOptStr info.webId ∧ si.pods = podsLoc ∧
    si.accessGrantId = storedGrantId rs ∧
    si.accessGrantExpirationDate = storedGrantExpiration rs := by
  obtain ⟨-, h1, h2⟩ := sessionInformationHandler_some_fields info podsLoc rs si h
  obtain ⟨h3, h4⟩ := sessionInformationHandler_ok_grant_fields (some info) podsLoc rs si h
  exact ⟨h1, h2, h3, h4⟩

/-- C4 witness for the amended theorem. -/
theorem c4_fields_track_presence_witness :
    truthyOptStr (some "https://id.example/profile#me") =
        some "https://id.example/profile#me" ∧
    storedGrantId { rsEmpty with
        accessGrant := some { id := some "grant-1", expirationDate := some 9 },
        accessGrantExpirationDate := some "ISO:9Z" } = some "grant-1" := by
  have := c4_fields_track_presence
    { isLoggedIn := false, webId := some "https://id.example/profile#me",
      expirationDate := some 0 }
    (some ["https://pod.example/data/"])
    { rsEmpty with
      accessGrant := some { id := some "grant-1", expirationDate := some 9 },
      accessGrantExpirationDate := some "ISO:9Z" }
    { isLoggedIn := false, expirationDate := some "ISO:0Z",
      accessGrantId := some "grant-1", accessGrantExpirationDate := some "ISO:9Z",
      webId := some "https://id.example/profile#me",
      pods := some ["https://pod.example/data/"] }
    rfl rfl
  exact ⟨this.1.symm, this.2.2.1.symm⟩

/-- C5 (failing input): with an existing session record whose
`expirationDate` is absent, the projection is not total: the source
computes `new Date(undefined * 1000).toISOString()`, which throws
`RangeError: Invalid time value`, and the error is passed to the error
handler instead of a view being returned. -/
theorem c5_projection_throws_on_missing_expiration :
    sessionInformationHandler
      (some { isLoggedIn := false, webId := none, expirationDate := none })
      none rsEmpty = Except.error "Invalid time value" := by rfl

/-- C6: `GET /session-information` with no resolvable session record and
no session-stored access-grant data returns exactly the view
`isLoggedIn = false` with every other key absent. -/
theorem c6_no_session_exact_view (podsLoc : Option (List String)) (rs : ReqSession)
    (hg : rs.accessGrant = none) (he : rs.accessGrantExpirationDate = none) :
    sessionInformationHandler none podsLoc rs = Except.ok emptySessionView := by
  unfold sessionInformationHandler applyGrantFields emptySessionView
  rw [hg, he]

/-- C6 witness. -/
theorem c6_no_session_exact_view_witness :
    sessionInformationHandler none none rsEmpty = Except.ok emptySessionView :=
  c6_no_session_exact_view none rsEmpty rfl rfl

/-- C7: `/logout` on a resolved session always responds with a redirect
to a fresh copy of the front-end URL carrying `logout=success` when the
identity invalidation succeeded and `logout=error` when it failed, and
it never passes an error to the generic error handler. -/
theorem c7_logout_always_redirects (logoutResult : Except String Unit)
    (w : World) (s : ReqSession) :
    (logoutHandler logoutResult w s).errorToNext = none ∧
    (logoutHandler logoutResult w s).redirectTo =
      some ((Url.copy w.frontendUrl).setParam "logout"
        (match logoutResult with
         | Except.ok _ => "success"
         | Except.error _ => "error")) := by
  cases logoutResult <;> simp [logoutHandler]

/-- C9: storing a resolvable grant with a truthy id and a present
expiration via `POST /access-grant` succeeds, and any subsequent
successful `GET /session-information` projection reports that grant id
and the grant expiration normalized to an absolute timestamp string. -/
theorem c9_store_then_project_roundtrip (g : AccessGrant) (i : String) (t : Int)
    (hid : g.id = some i) (hne : i.isEmpty = false) (hexp : g.expirationDate = some t)
    (sessOpt : Option SolidSessionInfo) (podsLoc : Option (List String))
    (rs : ReqSession) (si : SessionInformation)
    (hview : sessionInformationHandler sessOpt podsLoc
        (postAccessGrantHandler (Except.ok g) rs).2 = Except.ok si) :
    (postAccessGrantHandler (Except.ok g) rs).1 =
        Except.ok "Access grant set on session" ∧
    si.accessGrantId = some i ∧
    si.accessGrantExpirationDate = some (toISOStringModel t) := by
  obtain ⟨h3, h4⟩ :=
    sessionInformationHandler_ok_grant_fields sessOpt podsLoc _ si hview
  have hsnd : (postAccessGrantHandler (Except.ok g) rs).2 =
      { rs with accessGrant := some g,
                accessGrantExpirationDate := some (toISOStringModel t) } := by
    simp [postAccessGrantHandler, hexp]
  have hfst : (postAccessGrantHandler (Except.ok g) rs).1 =
      Except.ok "Access grant set on session" := by
    simp [postAccessGrantHandler, hexp]
  rw [hsnd] at h3 h4
  refine ⟨hfst, ?_, ?_⟩
  · rw [h3]
    simp [storedGrantId, truthyOptStr, hid, hne]
  · rw [h4]
    simp [storedGrantExpiration, truthyOptStr, toISOStringModel_isEmpty]

/-- C9 witness. -/
theorem c9_store_then_project_roundtrip_witness :
    (postAccessGrantHandler
        (Except.ok { id := some "grant-1", expirationDate := some 99 }) rsEmpty).1 =
      Except.ok "Access grant set on session" ∧
    ({ emptySessionView with
        accessGrantId := some "grant-1",
        accessGrantExpirationDate := some (toISOStringModel 99) }
      : SessionInformation).accessGrantId = some "grant-1" ∧
    ({ emptySessionView with
        accessGrantId := some "grant-1",
        accessGrantExpirationDate := some (toISOStringModel 99) }
      : SessionInformation).accessGrantExpirationDate = some (toISOStringModel 99) :=
  c9_store_then_project_roundtrip
    { id := some "grant-1", expirationDate := some 99 } "grant-1" 99 rfl rfl rfl
    none none rsEmpty
    { emptySessionView with
      accessGrantId := some "grant-1",
      accessGrantExpirationDate := some (toISOStringModel 99) }
    (by rfl)

theorem find?_filter_keyne (k k' : String) (h : ¬ k' = k) :
    ∀ l : List (String × String),
      (l.filter (fun p => p.1 != k)).find? (fun p => p.1 == k') =
        l.find? (fun p => p.1 == k')
  | [] => rfl
  | (a, b) :: l => by
    by_cases hab : a = k
    · rw [List.filter_cons_of_neg (by simp [hab]),
          List.find?_cons_of_neg _ (by simp [hab, Ne.symm h]),
          find?_filter_keyne k k' h l]
    · rw [List.filter_cons_of_pos (by simp [hab])]
      by_cases hak : a = k'
      · rw [List.find?_cons_of_pos _ (by simp [hak]),
            List.find?_cons_of_pos _ (by simp [hak])]
      · rw [List.find?_cons_of_neg _ (by simp [hak]),
            List.find?_cons_of_neg _ (by simp [hak]),
            find?_filter_keyne k k' h l]

theorem find?_setParamList_self (k v : String) :
    ∀ l : List (String × String),
      (setParamList l k v).find? (fun p => p.1 == k) = some (k, v)
  | [] => by
    rw [setParamList, List.find?_cons_of_pos _ (by simp)]
  | (a, b) :: l => by
    by_cases hab : a = k
    · rw [setParamList, if_pos (by simp [hab]),
          List.find?_cons_of_pos _ (by simp)]
    · rw [setParamList, if_neg (by simp [hab]),
          List.find?_cons_of_neg _ (by simp [hab]),
          find?_setParamList_self k v l]

theorem find?_setParamList_ne (k k' v : String) (h : ¬ k' = k) :
    ∀ l : List (String × String),
      (setParamList l k v).find? (fun p => p.1 == k') =
        l.find? (fun p => p.1 == k')
  | [] => by
    rw [setParamList, List.find?_cons_of_neg _ (by simp [Ne.symm h]), List.find?]
  | (a, b) :: l => by
    by_cases hab : a = k
    · rw [setParamList, if_pos (by simp [hab]),
          List.find?_cons_of_neg _ (by simp [Ne.symm h]),
          List.find?_cons_of_neg _ (by simp [hab, Ne.symm h]),
          find?_filter_keyne k k' h l]
    · by_cases hak : a = k'
      · rw [setParamList, if_neg (by simp [hab]),
            List.find?_cons_of_pos _ (by simp [hak]),
            List.find?_cons_of_pos _ (by simp [hak])]
      · rw [setParamList, if_neg (by simp [hab]),
            List.find?_cons_of_neg _ (by simp [hak]),
            List.find?_cons_of_neg _ (by simp [hak]),
            find?_setParamList_ne k k' v h l]

theorem Url.getParam_setParam_self (u : Url) (k v : String) :
    (u.setParam k v).getParam k = some v := by
  simp [Url.getParam, Url.setParam, find?_setParamList_self]

theorem Url.getParam_setParam_ne (u : Url) (k k' v : String) (h : ¬ k' = k) :
    (u.setParam k v).getParam k' = u.getParam k' := by
  simp [Url.getParam, Url.setParam, find?_setParamList_ne k k' v h]

/-- C1: on the normal completion path, a redirect-completion failure
whose message starts with the missing-WebID text sets
`workaroundActive = create_web_id`, re-runs the login (emitting the
login redirect built by its callback) and passes no error to the error
handler, while any other failure is rethrown and reaches the error
handler unrecovered. -/
theorem c1_missing_webid_recovered_others_propagate (env : RedirectEnv)
    (w : World) (s : ReqSession) (fullUrl code st msg : String)
    (hwa : s.workaroundActive = none)
    (hfail : env.handleIncomingRedirect = Except.error msg) :
    (jsStartsWith msg noWebIdClaimMsg = true →
      ∀ urlStr lu, env.login = Except.ok urlStr → Url.parse urlStr = some lu →
        (oidcRedirectHandler env w s fullUrl code st).session.workaroundActive =
            some "create_web_id" ∧
        (oidcRedirectHandler env w s fullUrl code st).redirectTo =
            some (loginCallbackUrl false lu) ∧
        (oidcRedirectHandler env w s fullUrl code st).actions =
            [CapCall.handleIncomingRedirect fullUrl, CapCall.login false] ∧
        (oidcRedirectHandler env w s fullUrl code st).errorToNext = none) ∧
    (jsStartsWith msg noWebIdClaimMsg = false →
      (oidcRedirectHandler env w s fullUrl code st).errorToNext = some msg ∧
      (oidcRedirectHandler env w s fullUrl code st).redirectTo = none ∧
      (oidcRedirectHandler env w s fullUrl code st).session = s) := by
  constructor
  · intro hmatch urlStr lu hlogin hparse
    simp [oidcRedirectHandler, hwa, truthyStr, hfail, hmatch, hlogin, hparse]
  · intro hnomatch
    simp [oidcRedirectHandler, hwa, truthyStr, hfail, hnomatch]

/-- C1 witness. -/
theorem c1_missing_webid_recovered_others_propagate_witness :
    (oidcRedirectHandler
        { handleIncomingRedirect := Except.error noWebIdClaimMsg,
          storage := fun _ => none, getToken := Except.error "e",
          provision := Except.ok (), login := Except.ok "https://idp.example/auth" }
        { frontendUrl := frontSample } rsEmpty "f" "c" "s").session.workaroundActive =
      some "create_web_id" ∧
    (oidcRedirectHandler
        { handleIncomingRedirect := Except.error noWebIdClaimMsg,
          storage := fun _ => none, getToken := Except.error "e",
          provision := Except.ok (), login := Except.ok "https://idp.example/auth" }
        { frontendUrl := frontSample } rsEmpty "f" "c" "s").errorToNext = none ∧
    (oidcRedirectHandler
        { handleIncomingRedirect := Except.error "token exchange refused",
          storage := fun _ => none, getToken := Except.error "e",
          provision := Except.ok (), login := Except.ok "https://idp.example/auth" }
        { frontendUrl := frontSample } rsEmpty "f" "c" "s").errorToNext =
      some "token exchange refused" := by
  refine ⟨?_, ?_, ?_⟩
  · exact ((c1_missing_webid_recovered_others_propagate _ _ _ "f" "c" "s"
      noWebIdClaimMsg rfl rfl).1 (by decide) "https://idp.example/auth"
      { base := "https://idp.example/auth", params := [] } rfl (by decide)).1
  · exact ((c1_missing_webid_recovered_others_propagate _ _ _ "f" "c" "s"
      noWebIdClaimMsg rfl rfl).1 (by decide) "https://idp.example/auth"
      { base := "https://idp.example/auth", params := [] } rfl (by decide)).2.2.2
  · exact ((c1_missing_webid_recovered_others_propagate _ _ _ "f" "c" "s"
      "token exchange refused" rfl rfl).2 (by decide)).1

/-- C2: on the `create_web_id` leg, the handler reads the stored OIDC
protocol record for the browser session, exchanges the incoming
authorization code and state together with the stored PKCE verifier,
provisions the WebID from the returned identity token, clears the
workaround flag and re-runs login with the identity-switch hint set —
in that order, and without ever calling the redirect-completion
capability. -/
theorem c2_provisioning_leg_order (env : RedirectEnv) (w : World) (s : ReqSession)
    (fullUrl code st : String) (sr : SolidClientRecord) (tok : TokenResponse)
    (urlStr : String) (lu : Url)
    (hwa : s.workaroundActive = some "create_web_id")
    (hsr : env.storage ("solidClientAuthenticationUser:" ++ s.solidSid) = some sr)
    (htok : env.getToken = Except.ok tok)
    (hprov : env.provision = Except.ok ())
    (hlogin : env.login = Except.ok urlStr)
    (hparse : Url.parse urlStr = some lu) :
    (oidcRedirectHandler env w s fullUrl code st).actions =
        [CapCall.storageGet ("solidClientAuthenticationUser:" ++ s.solidSid),
         CapCall.getToken code sr.codeVerifier st,
         CapCall.provisionWebId tok.id_token,
         CapCall.login true] ∧
    (oidcRedirectHandler env w s fullUrl code st).session.workaroundActive = none ∧
    (oidcRedirectHandler env w s fullUrl code st).redirectTo =
        some (loginCallbackUrl true lu) ∧
    (loginCallbackUrl true lu).getParam "login_hint" = some switchIdHint ∧
    (oidcRedirectHandler env w s fullUrl code st).errorToNext = none ∧
    (∀ u, CapCall.handleIncomingRedirect u ∉
      (oidcRedirectHandler env w s fullUrl code st).actions) := by
  have hrun : oidcRedirectHandler env w s fullUrl code st =
      { redirectTo := some (loginCallbackUrl true lu),
        session := { s with workaroundActive := none }, world := w,
        actions := [CapCall.storageGet ("solidClientAuthenticationUser:" ++ s.solidSid),
                    CapCall.getToken code sr.codeVerifier st,
                    CapCall.provisionWebId tok.id_token,
                    CapCall.login true],
        errorToNext := none } := by
    simp [oidcRedirectHandler, hwa, truthyStr, hsr, htok, hprov, hlogin, hparse,
          show ("create_web_id" : String).isEmpty = false from rfl]
  rw [hrun]
  refine ⟨rfl, rfl, rfl, ?_, rfl, ?_⟩
  · exact Url.getParam_setParam_self _ _ _
  · intro u
    simp

/-- C2 witness. -/
theorem c2_provisioning_leg_order_witness :
    (oidcRedirectHandler
        { handleIncomingRedirect := Except.error "unused",
          storage := fun _ => some { codeVerifier := "pkce-ver" },
          getToken := Except.ok { id_token := "idtok" },
          provision := Except.ok (),
          login := Except.ok "https://idp.example/auth?scope=openid" }
        { frontendUrl := frontSample }
        { rsEmpty with workaroundActive := some "create_web_id" }
        "f" "code-1" "state-1").actions =
      [CapCall.storageGet "solidClientAuthenticationUser:sid-0",
       CapCall.getToken "code-1" "pkce-ver" "state-1",
       CapCall.provisionWebId "idtok",
       CapCall.login true] ∧
    (oidcRedirectHandler
        { handleIncomingRedirect := Except.error "unused",
          storage := fun _ => some { codeVerifier := "pkce-ver" },
          getToken := Except.ok { id_token := "idtok" },
          provision := Except.ok (),
          login := Except.ok "https://idp.example/auth?scope=openid" }
        { frontendUrl := frontSample }
        { rsEmpty with workaroundActive := some "create_web_id" }
        "f" "code-1" "state-1").session.workaroundActive = none := by
  have h := c2_provisioning_leg_order
    { handleIncomingRedirect := Except.error "unused",
      storage := fun _ => some { codeVerifier := "pkce-ver" },
      getToken := Except.ok { id_token := "idtok" },
      provision := Except.ok (),
      login := Except.ok "https://idp.example/auth?scope=openid" }
    { frontendUrl := frontSample }
    { rsEmpty with workaroundActive := some "create_web_id" }
    "f" "code-1" "state-1"
    { codeVerifier := "pkce-ver" } { id_token := "idtok" }
    "https://idp.example/auth?scope=openid"
    { base := "https://idp.example/auth", params := [("scope", "openid")] }
    rfl rfl rfl rfl rfl (by decide)
  exact ⟨h.1, h.2.1⟩

/-- C10: the not-logged-in branch of `/oidc-redirect` aliases the shared
global front-end URL object and sets `login=failed` on it in place, so
the mutation persists in the world and every later URL derived from the
global by setting another parameter still carries `login=failed`; every
other outcome of the handler leaves the shared global unchanged. -/
theorem c10_failed_login_mutates_shared_global (env : RedirectEnv) (w : World)
    (s : ReqSession) (fullUrl code st : String) :
    (s.workaroundActive = none → env.handleIncomingRedirect = Except.ok false →
      (oidcRedirectHandler env w s fullUrl code st).world.frontendUrl =
          w.frontendUrl.setParam "login" "failed" ∧
      (oidcRedirectHandler env w s fullUrl code st).redirectTo =
          some (w.frontendUrl.setParam "login" "failed") ∧
      (∀ k v, ¬ k = "login" →
        (((oidcRedirectHandler env w s fullUrl code st).world.frontendUrl.setParam
            k v).getParam "login") = some "failed")) ∧
    (s.workaroundActive = none → ∀ b, env.handleIncomingRedirect = Except.ok b →
      b = true → (oidcRedirectHandler env w s fullUrl code st).world = w) ∧
    (s.workaroundActive = none → ∀ m, env.handleIncomingRedirect = Except.error m →
      (oidcRedirectHandler env w s fullUrl code st).world = w) ∧
    (truthyStr s.workaroundActive = true →
      (oidcRedirectHandler env w s fullUrl code st).world = w) := by
  refine ⟨?_, ?_, ?_, ?_⟩
  · intro hwa hok
    have hrun : oidcRedirectHandler env w s fullUrl code st =
        { redirectTo := some (w.frontendUrl.setParam "login" "failed"),
          session := s,
          world := { frontendUrl := w.frontendUrl.setParam "login" "failed" },
          actions := [CapCall.handleIncomingRedirect fullUrl],
          errorToNext := none } := by
      simp [oidcRedirectHandler, hwa, truthyStr, hok]
    rw [hrun]
    refine ⟨rfl, rfl, ?_⟩
    intro k v hk
    rw [Url.getParam_setParam_ne _ k "login" v (Ne.symm hk),
        Url.getParam_setParam_self]
  · intro hwa b hok hb
    subst hb
    rcases hru : s.redirectUrl with _ | ru <;>
      simp [oidcRedirectHandler, hwa, truthyStr, hok, hru]
  · intro hwa m herr
    by_cases hm : jsStartsWith m noWebIdClaimMsg
    · rcases hl : env.login with e | us
      · simp [oidcRedirectHandler, hwa, truthyStr, herr, hm, hl]
      · rcases hp : Url.parse us with _ | lu <;>
          simp [oidcRedirectHandler, hwa, truthyStr, herr, hm, hl, hp]
    · simp [oidcRedirectHandler, hwa, truthyStr, herr, hm]
  · intro htr
    by_cases hcw : s.workaroundActive = some "create_web_id"
    · rw [hcw] at htr
      rcases hsr : env.storage ("solidClientAuthenticationUser:" ++ s.solidSid)
          with _ | sr
      · simp [oidcRedirectHandler, htr, hcw, hsr]
      · rcases ht : env.getToken with e | tok
        · simp [oidcRedirectHandler, htr, hcw, hsr, ht]
        · rcases hp : env.provision with e | u
          · simp [oidcRedirectHandler, htr, hcw, hsr, ht, hp]
          · rcases hl : env.login with e | us
            · simp [oidcRedirectHandler, htr, hcw, hsr, ht, hp, hl]
            · rcases hpu : Url.parse us with _ | lu <;>
                simp [oidcRedirectHandler, htr, hcw, hsr, ht, hp, hl, hpu]
    · simp [oidcRedirectHandler, htr, hcw]

/-- C10 witness. -/
theorem c10_failed_login_mutates_shared_global_witness :
    (oidcRedirectHandler
        { handleIncomingRedirect := Except.ok false, storage := fun _ => none,
          getToken := Except.error "e", provision := Except.ok (),
          login := Except.error "e" }
        { frontendUrl := frontSample } rsEmpty "f" "c" "s").world.frontendUrl =
      frontSample.setParam "login" "failed" ∧
    (((oidcRedirectHandler
        { handleIncomingRedirect := Except.ok false, storage := fun _ => none,
          getToken := Except.error "e", provision := Except.ok (),
          login := Except.error "e" }
        { frontendUrl := frontSample } rsEmpty "f" "c" "s").world.frontendUrl.setParam
        "logout" "success").getParam "login") = some "failed" := by
  have h := (c10_failed_login_mutates_shared_global
    { handleIncomingRedirect := Except.ok false, storage := fun _ => none,
      getToken := Except.error "e", provision := Except.ok (),
      login := Except.error "e" }
    { frontendUrl := frontSample } rsEmpty "f" "c" "s").1 rfl rfl
  exact ⟨h.1, h.2.2 "logout" "success" (by decide)⟩

/-- C8: `/login?redirectUrl=U` with a well-formed `U` stores the parsed
return target on the cookie session regardless of how the login leg
itself ends; a subsequent successful completion on the normal path
redirects to that target with `login=success` appended and clears the
stored target; and with no stored target the success redirect goes to a
fresh copy of the front-end URL instead. -/
theorem c8_return_target_roundtrip (lenv : OidcLoginEnv) (w w2 : World)
    (s : ReqSession) (U : String) (u : Url) (sq : Option String)
    (renv : RedirectEnv) (fullUrl code st : String)
    (hU : Url.parse U = some u)
    (hUne : U.isEmpty = false)
    (hwa : s.workaroundActive = none)
    (hok : renv.handleIncomingRedirect = Except.ok true) :
    (loginHandler lenv w s (some U) sq).session.redirectUrl = some u ∧
    (loginHandler lenv w s (some U) sq).session.workaroundActive = none ∧
    (oidcRedirectHandler renv w2 (loginHandler lenv w s (some U) sq).session
        fullUrl code st).redirectTo = some (u.setParam "login" "success") ∧
    (oidcRedirectHandler renv w2 (loginHandler lenv w s (some U) sq).session
        fullUrl code st).session.redirectUrl = none ∧
    (∀ s2 : ReqSession, s2.workaroundActive = none → s2.redirectUrl = none →
      (oidcRedirectHandler renv w2 s2 fullUrl code st).redirectTo =
        some ((Url.copy w2.frontendUrl).setParam "login" "success")) := by
  have hsess : (loginHandler lenv w s (some U) sq).session =
      { s with solidSid := lenv.newSessionId, redirectUrl := some u } := by
    rcases hl : lenv.login with e | us
    · simp [loginHandler, loginProceed, truthyStr, hUne, hU, hl]
    · rcases hp : Url.parse us with _ | lu <;>
        simp [loginHandler, loginProceed, truthyStr, hUne, hU, hl, hp]
  refine ⟨?_, ?_, ?_, ?_, ?_⟩
  · rw [hsess]
  · rw [hsess]; exact hwa
  · rw [hsess]
    simp [oidcRedirectHandler, truthyStr, hwa, hok]
  · rw [hsess]
    simp [oidcRedirectHandler, truthyStr, hwa, hok]
  · intro s2 hwa2 hru2
    simp [oidcRedirectHandler, truthyStr, hwa2, hok, hru2]

/-- C8 witness. -/
theorem c8_return_target_roundtrip_witness :
    (loginHandler { newSessionId := "sid-1", login := Except.ok "https://idp.example/auth" }
        { frontendUrl := frontSample } rsEmpty (some "https://app.example/home")
        none).session.redirectUrl = some { base := "https://app.example/home", params := [] } ∧
    (oidcRedirectHandler
        { handleIncomingRedirect := Except.ok true, storage := fun _ => none,
          getToken := Except.error "e", provision := Except.ok (),
          login := Except.error "e" }
        { frontendUrl := frontSample }
        (loginHandler { newSessionId := "sid-1", login := Except.ok "https://idp.example/auth" }
          { frontendUrl := frontSample } rsEmpty (some "https://app.example/home")
          none).session
        "f" "c" "s").redirectTo =
      some (({ base := "https://app.example/home", params := [] } : Url).setParam
        "login" "success") ∧
    (oidcRedirectHandler
        { handleIncomingRedirect := Except.ok true, storage := fun _ => none,
          getToken := Except.error "e", provision := Except.ok (),
          login := Except.error "e" }
        { frontendUrl := frontSample } rsEmpty "f" "c" "s").redirectTo =
      some ((Url.copy frontSample).setParam "login" "success") := by
  have h := c8_return_target_roundtrip
    { newSessionId := "sid-1", login := Except.ok "https://idp.example/auth" }
    { frontendUrl := frontSample } { frontendUrl := frontSample } rsEmpty
    "https://app.example/home" { base := "https://app.example/home", params := [] }
    none
    { handleIncomingRedirect := Except.ok true, storage := fun _ => none,
      getToken := Except.error "e", provision := Except.ok (),
      login := Except.error "e" }
    "f" "c" "s" (by decide) rfl rfl rfl
  exact ⟨h.1, h.2.2.1, h.2.2.2.2 rsEmpty rfl rfl⟩

theorem countCalls_cons (p : CapCall → Bool) (r : AuthResult) (rs : List AuthResult) :
    countCalls p (r :: rs) = (r.actions.filter p).length + countCalls p rs := by
  simp [countCalls]

theorem step_normal_none (env : RedirectEnv) (w : World) (s : ReqSession)
    (fullUrl code st : String)
    (hwa : s.workaroundActive = none)
    (herr : (oidcRedirectHandler env w s fullUrl code st).errorToNext = none)
    (hnw : ∀ m, env.handleIncomingRedirect = Except.error m →
      jsStartsWith m noWebIdClaimMsg = false) :
    (oidcRedirectHandler env w s fullUrl code st).session.workaroundActive = none ∧
    (oidcRedirectHandler env w s fullUrl code st).actions.filter isProvisionCall = [] ∧
    (oidcRedirectHandler env w s fullUrl code st).actions.filter isTokenCall = [] ∧
    (oidcRedirectHandler env w s fullUrl code st).actions.filter isSwitchLoginCall = [] := by
  rcases hh : env.handleIncomingRedirect with m | b
  · have := hnw m hh
    simp [oidcRedirectHandler, hwa, truthyStr, hh, this] at herr
  · rcases b with _ | _
    · simp [oidcRedirectHandler, hwa, truthyStr, hh, isProvisionCall, isTokenCall,
            isSwitchLoginCall]
    · rcases hru : s.redirectUrl with _ | ru <;>
        simp [oidcRedirectHandler, hwa, truthyStr, hh, hru, isProvisionCall,
              isTokenCall, isSwitchLoginCall]

theorem step_workaround_entry (env : RedirectEnv) (w : World) (s : ReqSession)
    (fullUrl code st m : String)
    (hwa : s.workaroundActive = none)
    (hh : env.handleIncomingRedirect = Except.error m)
    (hm : jsStartsWith m noWebIdClaimMsg = true)
    (herr : (oidcRedirectHandler env w s fullUrl code st).errorToNext = none) :
    (oidcRedirectHandler env w s fullUrl code st).session.workaroundActive =
        some "create_web_id" ∧
    (oidcRedirectHandler env w s fullUrl code st).actions.filter isProvisionCall = [] ∧
    (oidcRedirectHandler env w s fullUrl code st).actions.filter isTokenCall = [] ∧
    (oidcRedirectHandler env w s fullUrl code st).actions.filter isSwitchLoginCall = [] := by
  rcases hl : env.login with e | us
  · simp [oidcRedirectHandler, hwa, truthyStr, hh, hm, hl] at herr
  · rcases hp : Url.parse us with _ | lu
    · simp [oidcRedirectHandler, hwa, truthyStr, hh, hm, hl, hp] at herr
    · simp [oidcRedirectHandler, hwa, truthyStr, hh, hm, hl, hp, isProvisionCall,
            isTokenCall, isSwitchLoginCall]

theorem step_provisioning_leg (env : RedirectEnv) (w : World) (s : ReqSession)
    (fullUrl code st : String)
    (hwa : s.workaroundActive = some "create_web_id")
    (herr : (oidcRedirectHandler env w s fullUrl code st).errorToNext = none) :
    (oidcRedirectHandler env w s fullUrl code st).session.workaroundActive = none ∧
    ((oidcRedirectHandler env w s fullUrl code st).actions.filter
        isProvisionCall).length = 1 ∧
    ((oidcRedirectHandler env w s fullUrl code st).actions.filter
        isTokenCall).length = 1 ∧
    ((oidcRedirectHandler env w s fullUrl code st).actions.filter
        isSwitchLoginCall).length = 1 := by
  have hemp : truthyStr (some "create_web_id") = true := rfl
  rcases hsr : env.storage ("solidClientAuthenticationUser:" ++ s.solidSid)
      with _ | sr
  · simp [oidcRedirectHandler, hwa, hemp, hsr] at herr
  · rcases ht : env.getToken with e | tok
    · simp [oidcRedirectHandler, hwa, hemp, hsr, ht] at herr
    · rcases hp : env.provision with e | u
      · simp [oidcRedirectHandler, hwa, hemp, hsr, ht, hp] at herr
      · rcases hl : env.login with e | us
        · simp [oidcRedirectHandler, hwa, hemp, hsr, ht, hp, hl] at herr
        · rcases hpu : Url.parse us with _ | lu
          · simp [oidcRedirectHandler, hwa, hemp, hsr, ht, hp, hl, hpu] at herr
          · simp [oidcRedirectHandler, hwa, hemp, hsr, ht, hp, hl, hpu,
                  isProvisionCall, isTokenCall, isSwitchLoginCall]

theorem runCompletions_cons (w : World) (s : ReqSession) (fullUrl code st : String)
    (e : RedirectEnv) (es : List RedirectEnv) :
    runCompletions w s fullUrl code st (e :: es) =
      oidcRedirectHandler e w s fullUrl code st ::
        runCompletions (oidcRedirectHandler e w s fullUrl code st).world
          (oidcRedirectHandler e w s fullUrl code st).session fullUrl code st es := by
  simp [runCompletions]

theorem trace_normal_tail (fullUrl code st : String) :
    ∀ (es : List RedirectEnv) (w : World) (s : ReqSession),
      s.workaroundActive = none →
      (∀ r ∈ runCompletions w s fullUrl code st es, r.errorToNext = none) →
      (∀ e ∈ es, ∀ m, e.handleIncomingRedirect = Except.error m →
        jsStartsWith m noWebIdClaimMsg = false) →
      countCalls isProvisionCall (runCompletions w s fullUrl code st es) = 0 ∧
      countCalls isTokenCall (runCompletions w s fullUrl code st es) = 0 ∧
      countCalls isSwitchLoginCall (runCompletions w s fullUrl code st es) = 0 ∧
      (∀ r ∈ runCompletions w s fullUrl code st es,
        r.session.workaroundActive = none)
  | [], w, s, hwa, herr, hnw => by simp [runCompletions, countCalls]
  | e :: es, w, s, hwa, herr, hnw => by
    rw [runCompletions_cons] at herr ⊢
    have hr0 : (oidcRedirectHandler e w s fullUrl code st).errorToNext = none :=
      herr _ (List.mem_cons_self _ _)
    obtain ⟨hwa1, hp1, ht1, hs1⟩ := step_normal_none e w s fullUrl code st hwa hr0
      (hnw e (List.mem_cons_self _ _))
    obtain ⟨ihp, iht, ihs, ihw⟩ := trace_normal_tail fullUrl code st es
      (oidcRedirectHandler e w s fullUrl code st).world
      (oidcRedirectHandler e w s fullUrl code st).session hwa1
      (fun r hr => herr r (List.mem_cons_of_mem _ hr))
      (fun e2 he2 => hnw e2 (List.mem_cons_of_mem _ he2))
    refine ⟨?_, ?_, ?_, ?_⟩
    · rw [countCalls_cons, hp1, ihp]
      rfl
    · rw [countCalls_cons, ht1, iht]
      rfl
    · rw [countCalls_cons, hs1, ihs]
      rfl
    · intro r hr
      rcases List.mem_cons.mp hr with h | h
      · rw [h]; exact hwa1
      · exact ihw r h

/-- C3: a completion that fails with the missing-WebID condition causes
exactly one provisioning round-trip — one direct token exchange, one
identity provisioning and one second login redirect carrying the
switch-identity hint — over the whole rest of the flow: in any
error-free continuation of the same login attempt (no later completion
reports the missing-WebID condition again, since the WebID now exists),
the provisioning leg runs exactly once, and after it every completion
sees `workaroundActive` cleared, so the workaround-entry branch is
never re-entered. -/
theorem c3_single_provisioning_roundtrip (w : World) (s : ReqSession)
    (fullUrl code st msg : String) (e1 e2 : RedirectEnv)
    (rest : List RedirectEnv)
    (hwa : s.workaroundActive = none)
    (hfail : e1.handleIncomingRedirect = Except.error msg)
    (hmsg : jsStartsWith msg noWebIdClaimMsg = true)
    (herr : ∀ r ∈ runCompletions w s fullUrl code st (e1 :: e2 :: rest),
      r.errorToNext = none)
    (hnw : ∀ e ∈ rest, ∀ m, e.handleIncomingRedirect = Except.error m →
      jsStartsWith m noWebIdClaimMsg = false) :
    countCalls isProvisionCall
        (runCompletions w s fullUrl code st (e1 :: e2 :: rest)) = 1 ∧
    countCalls isTokenCall
        (runCompletions w s fullUrl code st (e1 :: e2 :: rest)) = 1 ∧
    countCalls isSwitchLoginCall
        (runCompletions w s fullUrl code st (e1 :: e2 :: rest)) = 1 ∧
    (∀ r ∈ (runCompletions w s fullUrl code st (e1 :: e2 :: rest)).drop 1,
      r.session.workaroundActive = none) := by
  rw [runCompletions_cons] at herr ⊢
  rw [runCompletions_cons] at herr ⊢
  have hr1 : (oidcRedirectHandler e1 w s fullUrl code st).errorToNext = none :=
    herr _ (List.mem_cons_self _ _)
  obtain ⟨hwa1, hp1, ht1, hs1⟩ :=
    step_workaround_entry e1 w s fullUrl code st msg hwa hfail hmsg hr1
  have hr2 : (oidcRedirectHandler e2
      (oidcRedirectHandler e1 w s fullUrl code st).world
      (oidcRedirectHandler e1 w s fullUrl code st).session
      fullUrl code st).errorToNext = none :=
    herr _ (List.mem_cons_of_mem _ (List.mem_cons_self _ _))
  obtain ⟨hwa2, hp2, ht2, hs2⟩ :=
    step_provisioning_leg e2 _ _ fullUrl code st hwa1 hr2
  obtain ⟨ihp, iht, ihs, ihw⟩ := trace_normal_tail fullUrl code st rest _ _ hwa2
    (fun r hr => herr r (List.mem_cons_of_mem _ (List.mem_cons_of_mem _ hr)))
    hnw
  refine ⟨?_, ?_, ?_, ?_⟩
  · rw [countCalls_cons, countCalls_cons, hp1, hp2, ihp]
    rfl
  · rw [countCalls_cons, countCalls_cons, ht1, ht2, iht]
    rfl
  · rw [countCalls_cons, countCalls_cons, hs1, hs2, ihs]
    rfl
  · intro r hr
    rw [List.drop_one, List.tail_cons] at hr
    rcases List.mem_cons.mp hr with h | h
    · rw [h]; exact hwa2
    · exact ihw r h

/-- C3 witness: a concrete three-completion trace (failing completion,
provisioning leg, successful completion). -/
theorem c3_single_provisioning_roundtrip_witness :
    countCalls isProvisionCall
      (runCompletions { frontendUrl := frontSample } rsEmpty "f" "c" "s"
        [{ handleIncomingRedirect := Except.error noWebIdClaimMsg,
           storage := fun _ => some { codeVerifier := "v" },
           getToken := Except.ok { id_token := "t" },
           provision := Except.ok (),
           login := Except.ok "https://idp.example/auth" },
         { handleIncomingRedirect := Except.error noWebIdClaimMsg,
           storage := fun _ => some { codeVerifier := "v" },
           getToken := Except.ok { id_token := "t" },
           provision := Except.ok (),
           login := Except.ok "https://idp.example/auth" },
         { handleIncomingRedirect := Except.ok true,
           storage := fun _ => some { codeVerifier := "v" },
           getToken := Except.ok { id_token := "t" },
           provision := Except.ok (),
           login := Except.ok "https://idp.example/auth" }]) = 1 ∧
    countCalls isSwitchLoginCall
      (runCompletions { frontendUrl := frontSample } rsEmpty "f" "c" "s"
        [{ handleIncomingRedirect := Except.error noWebIdClaimMsg,
           storage := fun _ => some { codeVerifier := "v" },
           getToken := Except.ok { id_token := "t" },
           provision := Except.ok (),
           login := Except.ok "https://idp.example/auth" },
         { handleIncomingRedirect := Except.error noWebIdClaimMsg,
           storage := fun _ => some { codeVerifier := "v" },
           getToken := Except.ok { id_token := "t" },
           provision := Except.ok (),
           login := Except.ok "https://idp.example/auth" },
         { handleIncomingRedirect := Except.ok true,
           storage := fun _ => some { codeVerifier := "v" },
           getToken := Except.ok { id_token := "t" },
           provision := Except.ok (),
           login := Except.ok "https://idp.example/auth" }]) = 1 := by
  have h := c3_single_provisioning_roundtrip { frontendUrl := frontSample } rsEmpty
    "f" "c" "s" noWebIdClaimMsg
    { handleIncomingRedirect := Except.error noWebIdClaimMsg,
      storage := fun _ => some { codeVerifier := "v" },
      getToken := Except.ok { id_token := "t" },
      provision := Except.ok (),
      login := Except.ok "https://idp.example/auth" }
    { handleIncomingRedirect := Except.error noWebIdClaimMsg,
      storage := fun _ => some { codeVerifier := "v" },
      getToken := Except.ok { id_token := "t" },
      provision := Except.ok (),
      login := Except.ok "https://idp.example/auth" }
    [{ handleIncomingRedirect := Except.ok true,
       storage := fun _ => some { codeVerifier := "v" },
       getToken := Except.ok { id_token := "t" },
       provision := Except.ok (),
       login := Except.ok "https://idp.example/auth" }]
    rfl rfl (by decide)
    (by
      intro r hr
      simp only [runCompletions, List.mem_cons, List.not_mem_nil, or_false] at hr
      rcases hr with h | h | h <;> (rw [h]; rfl))
    (by
      intro e he m hm
      simp only [List.mem_singleton] at he
      subst he
      simp at hm)
  exact ⟨h.1, h.2.2.1⟩
